import Mathlib

/-!
Shallow embedding of the storage layer of the MathMathics backend
(`src/routes.ts`, class `DatabaseStorage`).

Modelling conventions:
  * The relational store is a `Store` record of lists of rows, one list per
    table.  A drizzle `update ... where P ... returning` becomes a `List.map`
    that rewrites the rows satisfying `P`, and `const [x] = ...returning()`
    becomes `head?` of the rows satisfying `P`.
  * Dates are day indices (`Nat`): `new Date()` truncated to midnight and the
    `date` column both become a single `today : Nat` threaded explicitly;
    timestamp-valued fields (`lastAccessed`, `updatedAt`, `unlockedAt`,
    `lastActiveDate`, `completedAt`) store that day index.
  * SQL `decimal` columns (`score`, `overallGrade`), read in TS through
    `Number(...)`, are modelled as exact rationals `ℚ`; JS number arithmetic
    on them is exact in the ranges the code uses.
  * Integer columns are `Nat` where the code only ever stores non-negative
    values (XP, counters, day indices); `Math.floor` on a rational is
    `Rat.floor`.
  * JS `x || 0` on an optional number field is `Option.getD 0` (for
    `x = some 0` both give `0`).
  * A drizzle insert's omitted columns taking schema defaults: the schema file
    is not part of this repository's sources; defaults are taken as `0`/`false`
    per the spec's data model, which no claim below depends on.
-/

structure User where
  id : Nat
  username : String
  totalXp : Nat
  level : Nat
  currentStreak : Nat
  longestStreak : Nat
  lastActiveDate : Nat
  overallGrade : ℚ
  updatedAt : Nat
  deriving Repr, DecidableEq

structure CourseProgress where
  userId : Nat
  topicId : String
  score : ℚ
  questionsCorrect : Nat
  questionsTotal : Nat
  completed : Bool
  difficulty : Nat
  lastAccessed : Nat
  deriving Repr, DecidableEq

structure Achievement where
  userId : Nat
  achievementType : String
  title : String
  description : String
  icon : String
  progress : Nat
  maxProgress : Nat
  unlocked : Bool
  unlockedAt : Option Nat
  xpReward : Nat
  deriving Repr, DecidableEq

structure QuizAttempt where
  userId : Nat
  topicId : String
  score : ℚ
  questionsCorrect : Nat
  questionsTotal : Nat
  difficulty : Nat
  timeSpent : Nat
  completedAt : Nat
  deriving Repr, DecidableEq

structure DailyActivity where
  id : Nat
  userId : Nat
  date : Nat
  questionsAnswered : Nat
  timeSpent : Nat
  xpEarned : Int
  streakMaintained : Bool
  deriving Repr, DecidableEq

structure PracticeQuestion where
  id : Nat
  topicId : String
  difficulty : Int
  deriving Repr, DecidableEq

structure Store where
  users : List User
  progress : List CourseProgress
  achievements : List Achievement
  attempts : List QuizAttempt
  activity : List DailyActivity
  questions : List PracticeQuestion
  nextActivityId : Nat
  deriving Repr, DecidableEq

/-- `Partial<User>` restricted to the fields the storage layer's own call
sites (`updateUserStreak`, `getDashboardData`) ever pass to `updateUser`. -/
structure UserUpdates where
  currentStreak : Option Nat := none
  longestStreak : Option Nat := none
  lastActiveDate : Option Nat := none
  overallGrade : Option ℚ := none
  deriving Repr, DecidableEq

/-- The drizzle `.set({ ...updates, updatedAt: new Date() })` merge in
`updateUser`. -/
def applyUserUpdates (u : User) (upd : UserUpdates) (now : Nat) : User :=
  { u with
    currentStreak := upd.currentStreak.getD u.currentStreak
    longestStreak := upd.longestStreak.getD u.longestStreak
    lastActiveDate := upd.lastActiveDate.getD u.lastActiveDate
    overallGrade := upd.overallGrade.getD u.overallGrade
    updatedAt := now }

/-- `updateUser(id, updates)`: merge the given fields into every row with this
id, stamp `updatedAt`, return the updated row. -/
def updateUser (now : Nat) (s : Store) (id : Nat) (upd : UserUpdates) :
    Store × Option User :=
  let users' := s.users.map fun u =>
    if u.id = id then applyUserUpdates u upd now else u
  ({ s with users := users' }, (users'.filter fun u => u.id = id).head?)

/-- `getDailyActivity(userId, days)`: rows of this user dated within the last
`days` days, ordered by date descending.  Insertion into a desc-sorted list,
modelling the SQL `orderBy(desc(dailyActivity.date))`. -/
def insertByDateDesc (a : DailyActivity) :
    List DailyActivity → List DailyActivity
  | [] => [a]
  | b :: rest =>
      if b.date ≤ a.date then a :: b :: rest else b :: insertByDateDesc a rest

def sortByDateDesc : List DailyActivity → List DailyActivity
  | [] => []
  | a :: rest => insertByDateDesc a (sortByDateDesc rest)

def getDailyActivity (s : Store) (userId : Nat) (days : Nat) (today : Nat) :
    List DailyActivity :=
  sortByDateDesc
    (s.activity.filter fun a => a.userId = userId ∧ today - days ≤ a.date)

/-- The `for` loop of `updateUserStreak` over the fetched activities'
`streakMaintained` flags, with the trailing
`longestStreak = Math.max(longestStreak, tempStreak)` flush folded into the
base case.  `i` is the loop index; note the source only assigns
`currentStreak` when `i === 0`. -/
def streakScan : List Bool → Nat → Nat → Nat → Nat → Nat × Nat
  | [], _, currentStreak, longestStreak, tempStreak =>
      (currentStreak, max longestStreak tempStreak)
  | flag :: rest, i, currentStreak, longestStreak, tempStreak =>
      if flag then
        let tempStreak' := tempStreak + 1
        let currentStreak' := if i = 0 then tempStreak' else currentStreak
        streakScan rest (i + 1) currentStreak' longestStreak tempStreak'
      else
        streakScan rest (i + 1) currentStreak
          (max longestStreak tempStreak) 0

/-- `updateUserStreak(userId)`: fetch the last 30 days of activity, run the
streak scan over their `streakMaintained` flags, persist
`currentStreak`/`longestStreak`/`lastActiveDate` through `updateUser`. -/
def updateUserStreak (today : Nat) (s : Store) (userId : Nat) : Store :=
  let activities := getDailyActivity s userId 30 today
  let r := streakScan (activities.map fun a => a.streakMaintained) 0 0 0 0
  (updateUser today s userId
    { currentStreak := some r.1
      longestStreak := some r.2
      lastActiveDate := some today }).1

/-- `unlockAchievement(userId, achievementType)`: set
`unlocked=true, unlockedAt=now` on the matching achievement rows; if the
returned achievement has `xpReward > 0`, issue
`UPDATE users SET totalXp = totalXp + xpReward,
               level = FLOOR(totalXp / 100) + 1`.
In SQL every `SET` expression is evaluated against the pre-update row, so
both `u.totalXp` occurrences below read the old value — in particular `level`
is computed from the pre-increment `totalXp`. -/
def unlockAchievement (now : Nat) (s : Store) (userId : Nat)
    (achievementType : String) : Store × Option Achievement :=
  let achievements' := s.achievements.map fun a =>
    if a.userId = userId ∧ a.achievementType = achievementType then
      { a with unlocked := true, unlockedAt := some now }
    else a
  let s' := { s with achievements := achievements' }
  match (achievements'.filter fun a =>
      a.userId = userId ∧ a.achievementType = achievementType).head? with
  | none => (s', none)
  | some achievement =>
      if achievement.xpReward > 0 then
        let users' := s'.users.map fun u =>
          if u.id = userId then
            { u with
              totalXp := u.totalXp + achievement.xpReward
              level := u.totalXp / 100 + 1 }
          else u
        ({ s' with users := users' }, some achievement)
      else (s', some achievement)

/-- `Partial<InsertCourseProgress>` restricted to the fields ever passed by
handlers and by `saveQuizAttempt`. -/
structure ProgressUpdates where
  score : Option ℚ := none
  questionsCorrect : Option Nat := none
  questionsTotal : Option Nat := none
  completed : Option Bool := none
  difficulty : Option Nat := none
  deriving Repr, DecidableEq

/-- The drizzle `.set({ ...updates, lastAccessed: new Date() })` merge in the
update branch of `updateCourseProgress`. -/
def applyProgressUpdates (p : CourseProgress) (upd : ProgressUpdates)
    (now : Nat) : CourseProgress :=
  { p with
    score := upd.score.getD p.score
    questionsCorrect := upd.questionsCorrect.getD p.questionsCorrect
    questionsTotal := upd.questionsTotal.getD p.questionsTotal
    completed := upd.completed.getD p.completed
    difficulty := upd.difficulty.getD p.difficulty
    lastAccessed := now }

/-- The row built by the insert branch of `updateCourseProgress`:
`values({ userId, topicId, ...updates })`, omitted columns taking schema
defaults. -/
def newProgressRow (userId : Nat) (topicId : String) (upd : ProgressUpdates)
    (now : Nat) : CourseProgress :=
  { userId := userId
    topicId := topicId
    score := upd.score.getD 0
    questionsCorrect := upd.questionsCorrect.getD 0
    questionsTotal := upd.questionsTotal.getD 0
    completed := upd.completed.getD false
    difficulty := upd.difficulty.getD 1
    lastAccessed := now }

/-- `updateCourseProgress(userId, topicId, updates)`: read-check for an
existing `(userId, topicId)` row (`limit(1)`); if present, merge the fields
and refresh `lastAccessed` on the matching rows; if absent, insert a new
row. -/
def updateCourseProgress (now : Nat) (s : Store) (userId : Nat)
    (topicId : String) (upd : ProgressUpdates) :
    Store × Option CourseProgress :=
  let keyed := s.progress.filter fun p =>
    p.userId = userId ∧ p.topicId = topicId
  let existing := keyed.take 1
  if existing.length > 0 then
    let progress' := s.progress.map fun p =>
      if p.userId = userId ∧ p.topicId = topicId then
        applyProgressUpdates p upd now
      else p
    ({ s with progress := progress' },
      (progress'.filter fun p =>
        p.userId = userId ∧ p.topicId = topicId).head?)
  else
    let row := newProgressRow userId topicId upd now
    ({ s with progress := s.progress ++ [row] }, some row)

/-- `Partial<InsertDailyActivity>` restricted to the numeric delta fields the
call sites pass. -/
structure ActivityUpdates where
  questionsAnswered : Option Nat := none
  timeSpent : Option Nat := none
  xpEarned : Option Int := none
  deriving Repr, DecidableEq

/-- `updateDailyActivity(userId, activity)`: resolve today, look for an
existing `(userId, today)` row; if found, additively bump the three counters
(`|| 0` on missing deltas) and set `streakMaintained=true` on the row with
that id; if absent, insert a fresh row with the deltas as values and then run
`updateUserStreak`. -/
def updateDailyActivity (today : Nat) (s : Store) (userId : Nat)
    (act : ActivityUpdates) : Store × Option DailyActivity :=
  let keyed := s.activity.filter fun a => a.userId = userId ∧ a.date = today
  match (keyed.take 1).head? with
  | some row =>
      let activity' := s.activity.map fun a =>
        if a.id = row.id then
          { a with
            questionsAnswered :=
              a.questionsAnswered + act.questionsAnswered.getD 0
            timeSpent := a.timeSpent + act.timeSpent.getD 0
            xpEarned := a.xpEarned + act.xpEarned.getD 0
            streakMaintained := true }
        else a
      ({ s with activity := activity' },
        (activity'.filter fun a => a.id = row.id).head?)
  | none =>
      let row : DailyActivity :=
        { id := s.nextActivityId
          userId := userId
          date := today
          questionsAnswered := act.questionsAnswered.getD 0
          timeSpent := act.timeSpent.getD 0
          xpEarned := act.xpEarned.getD 0
          streakMaintained := true }
      let s1 := { s with
        activity := s.activity ++ [row]
        nextActivityId := s.nextActivityId + 1 }
      (updateUserStreak today s1 userId, some row)

/-- The validated body of `POST /api/quiz-attempts`. -/
structure InsertQuizAttempt where
  userId : Nat
  topicId : String
  score : ℚ
  questionsCorrect : Nat
  questionsTotal : Nat
  difficulty : Nat
  timeSpent : Nat
  deriving Repr, DecidableEq

/-- `saveQuizAttempt(attempt)`: insert the attempt row, then update the
course progress for its `(userId, topicId)` with
`completed = (score >= 70)`, then update today's daily activity with
`questionsAnswered = questionsTotal`, `timeSpent = floor(timeSpent / 60)`
and `xpEarned = Math.floor(score)`. -/
def saveQuizAttempt (today : Nat) (s : Store) (attempt : InsertQuizAttempt) :
    Store × QuizAttempt :=
  let row : QuizAttempt :=
    { userId := attempt.userId
      topicId := attempt.topicId
      score := attempt.score
      questionsCorrect := attempt.questionsCorrect
      questionsTotal := attempt.questionsTotal
      difficulty := attempt.difficulty
      timeSpent := attempt.timeSpent
      completedAt := today }
  let s1 := { s with attempts := s.attempts ++ [row] }
  let s2 := (updateCourseProgress today s1 attempt.userId attempt.topicId
    { score := some attempt.score
      questionsCorrect := some attempt.questionsCorrect
      questionsTotal := some attempt.questionsTotal
      completed := some (decide (70 ≤ attempt.score))
      difficulty := some attempt.difficulty }).1
  let s3 := (updateDailyActivity today s2 attempt.userId
    { questionsAnswered := some attempt.questionsTotal
      timeSpent := some (attempt.timeSpent / 60)
      xpEarned := some (Rat.floor attempt.score) }).1
  (s3, row)

/-- `getCourseProgress(userId)` with no topic filter. -/
def getCourseProgress (s : Store) (userId : Nat) : List CourseProgress :=
  s.progress.filter fun p => p.userId = userId

/-- `getUserAchievements(userId)`. -/
def getUserAchievements (s : Store) (userId : Nat) : List Achievement :=
  s.achievements.filter fun a => a.userId = userId

/-- `getPracticeQuestions(topicId, difficulty?)`.  The source guards the
difficulty filter with JS truthiness, `if (difficulty)`: an absent difficulty
and a present difficulty equal to `0` are both falsy, so both skip the
filter. -/
def getPracticeQuestions (s : Store) (topicId : String)
    (difficulty : Option Int) : List PracticeQuestion :=
  match difficulty with
  | some d =>
      if d ≠ 0 then
        s.questions.filter fun q => q.topicId = topicId ∧ q.difficulty = d
      else
        s.questions.filter fun q => q.topicId = topicId
  | none => s.questions.filter fun q => q.topicId = topicId

/-- The composite view returned by `getDashboardData`. -/
structure Dashboard where
  user : User
  progress : List CourseProgress
  achievements : List Achievement
  recentActivity : List DailyActivity
  deriving Repr, DecidableEq

/-- `getDashboardData(userId)`: fetch the user, their progress, achievements
and last 7 days of activity; compute
`overallGrade = mean(score over completed progress)` (0 if none); persist it
through `updateUser` when it differs from the stored value; return the
composite view with the freshly computed grade substituted into the user.
A missing user is `none` (the TS code would throw dereferencing
`undefined`). -/
def getDashboardData (today : Nat) (s : Store) (userId : Nat) :
    Store × Option Dashboard :=
  match (s.users.filter fun u => u.id = userId).head? with
  | none => (s, none)
  | some user =>
      let progress := getCourseProgress s userId
      let userAchievements := getUserAchievements s userId
      let recentActivity := getDailyActivity s userId 7 today
      let completedCourses := progress.filter fun p => p.completed
      let totalScore : ℚ :=
        completedCourses.foldl (fun sum p => sum + p.score) 0
      let overallGrade : ℚ :=
        if completedCourses.length > 0 then
          totalScore / completedCourses.length
        else 0
      let s' :=
        if overallGrade ≠ user.overallGrade then
          (updateUser today s userId { overallGrade := some overallGrade }).1
        else s
      (s', some
        { user := { user with overallGrade := overallGrade }
          progress := progress
          achievements := userAchievements
          recentActivity := recentActivity })


/-- The overall grade as the spec words it: the arithmetic mean of `score`
over the user's completed `CourseProgress` rows, 0 when there are none.
Stated for comparison with what `getDashboardData` computes. -/
def meanCompletedScore (s : Store) (userId : Nat) : ℚ :=
  let cs := s.progress.filter fun p => p.userId = userId ∧ p.completed = true
  if cs.length = 0 then 0 else (cs.map fun p => p.score).sum / cs.length

/-! ### Concrete fixtures -/

def emptyStore : Store :=
  { users := [], progress := [], achievements := [], attempts := [],
    activity := [], questions := [], nextActivityId := 0 }

def mkUser (id xp lvl : Nat) : User :=
  { id := id, username := "u", totalXp := xp, level := lvl,
    currentStreak := 0, longestStreak := 0, lastActiveDate := 0,
    overallGrade := 0, updatedAt := 0 }

def mkAch (uid : Nat) (t : String) (xp : Nat) : Achievement :=
  { userId := uid, achievementType := t, title := "t", description := "d",
    icon := "i", progress := 0, maxProgress := 1, unlocked := false,
    unlockedAt := none, xpReward := xp }

def actRow (i d : Nat) (f : Bool) : DailyActivity :=
  { id := i, userId := 1, date := d, questionsAnswered := 0, timeSpent := 0,
    xpEarned := 0, streakMaintained := f }

/-- Fixture for the XP-award claims: one user with 250 XP at level 3 and one
locked achievement worth 100 XP. -/
def xpStore : Store :=
  { emptyStore with
    users := [mkUser 1 250 3]
    achievements := [mkAch 1 "number_master" 100] }

/-- Fixture with streak flags (most recent first) `[true, true, false, true]`
(dates 20, 19, 18, 17). -/
def streakStoreB : Store :=
  { emptyStore with
    users := [mkUser 1 0 1]
    activity := [actRow 0 17 true, actRow 1 20 true, actRow 2 18 false,
                 actRow 3 19 true] }

/-- Fixture with streak flags (most recent first) `[false, true, true, true]`
(dates 20, 19, 18, 17). -/
def streakStoreA : Store :=
  { emptyStore with
    users := [mkUser 1 0 1]
    activity := [actRow 0 20 false, actRow 1 19 true, actRow 2 18 true,
                 actRow 3 17 true] }


/-- A completed progress row of user 1 with the given topic and score. -/
def mkProg (t : String) (sc : ℚ) : CourseProgress :=
  { userId := 1, topicId := t, score := sc, questionsCorrect := 0,
    questionsTotal := 0, completed := true, difficulty := 1,
    lastAccessed := 0 }

def c4user : User := { mkUser 1 0 1 with overallGrade := 50 }

/-- Dashboard fixture: one user with stored grade 50 and completed progress
scores 100, 80, 60. -/
def c4store : Store :=
  { emptyStore with
    users := [c4user]
    progress := [mkProg "a" 100, mkProg "b" 80, mkProg "c" 60] }

/-- Fixture with one user and no activity rows. -/
def c6store : Store := { emptyStore with users := [mkUser 1 0 1] }

/-- The state after a first same-day `updateDailyActivity` call with
`questionsAnswered = 5` (which inserts the day's row). -/
def c6s1 : Store :=
  (updateDailyActivity 10 c6store 1 { questionsAnswered := some 5 }).1

/-- The second call's delta: `questionsAnswered = 3`. -/
def c6act : ActivityUpdates := { questionsAnswered := some 3 }

/-- The day's row as inserted by the first call. -/
def c6row : DailyActivity :=
  { id := 0, userId := 1, date := 10, questionsAnswered := 5, timeSpent := 0,
    xpEarned := 0, streakMaintained := true }

def quizStore : Store := { emptyStore with users := [mkUser 1 0 1] }

def attempt75 : InsertQuizAttempt :=
  { userId := 1, topicId := "algebra", score := 75, questionsCorrect := 7,
    questionsTotal := 10, difficulty := 2, timeSpent := 125 }

def attempt65 : InsertQuizAttempt :=
  { userId := 1, topicId := "algebra", score := 65, questionsCorrect := 6,
    questionsTotal := 10, difficulty := 2, timeSpent := 125 }

def c7upd : ProgressUpdates := { score := some 80 }

/-! ### Generic list lemmas used by several proofs -/

/-- Filtering after mapping a row-rewriting function that does not change
whether a row satisfies the predicate. -/
theorem filter_comm_map {α : Type} (f : α → α) (p : α → Bool)
    (hf : ∀ a, p (f a) = p a) :
    ∀ l : List α, (l.map f).filter p = (l.filter p).map f := by
  intro l
  induction l with
  | nil => rfl
  | cons a t ih =>
      simp only [List.map_cons, List.filter_cons, hf a]
      cases hpa : p a <;> simp [ih]

/-- The head of a filtered list satisfies the filter predicate. -/
theorem head_filter_pred {α : Type} (p : α → Bool) (l : List α) (a : α)
    (h : (l.filter p).head? = some a) : p a = true := by
  cases hf : l.filter p with
  | nil => rw [hf] at h; cases h
  | cons b t =>
      rw [hf] at h
      have hb : b ∈ l.filter p := by rw [hf]; exact List.mem_cons_self b t
      have hpb := (List.mem_filter.mp hb).2
      injection h with hba
      rw [← hba]
      exact hpb


/-- `head?` commutes with `map`. -/
theorem head_of_map {α β : Type} (f : α → β) (l : List α) :
    (l.map f).head? = l.head?.map f := by
  cases l <;> rfl

/-- Filtering a user's rows and then the completed ones equals one filter on
the conjunction. -/
theorem filter_filter_key (l : List CourseProgress) (userId : Nat) :
    ((l.filter fun p => p.userId = userId).filter fun p => p.completed) =
    l.filter fun p => p.userId = userId ∧ p.completed = true := by
  induction l with
  | nil => rfl
  | cons a t ih =>
      simp only [List.filter_cons]
      by_cases h1 : a.userId = userId <;> by_cases h2 : a.completed <;>
        simp [h1, h2, ih]

/-- The score-accumulating `reduce` is the sum of the scores. -/
theorem foldl_score (l : List CourseProgress) :
    ∀ q : ℚ, l.foldl (fun sum p => sum + p.score) q =
      q + (l.map fun p => p.score).sum := by
  induction l with
  | nil => intro q; simp
  | cons a t ih => intro q; simp [ih, add_assoc]

/-- The grade expression computed inside `getDashboardData` equals the
spec-worded mean. -/
theorem dash_grade_eq (s : Store) (userId : Nat) :
    (if 0 < ((getCourseProgress s userId).filter
        fun p => p.completed).length then
      (((getCourseProgress s userId).filter fun p => p.completed).foldl
        (fun sum p => sum + p.score) 0) /
        ((((getCourseProgress s userId).filter
          fun p => p.completed).length : ℚ))
    else 0) = meanCompletedScore s userId := by
  unfold getCourseProgress meanCompletedScore
  rw [filter_filter_key, foldl_score]
  generalize s.progress.filter (fun p =>
    p.userId = userId ∧ p.completed = true) = cs
  rw [zero_add]
  rcases Nat.eq_zero_or_pos cs.length with hz | hp
  · have hnil : cs = [] := List.length_eq_zero.mp hz
    simp [hnil]
  · rw [if_pos hp, if_neg (Nat.pos_iff_ne_zero.mp hp)]

/-- The insert branch of `updateCourseProgress`. -/
theorem ucp_insert (now : Nat) (s : Store) (u : Nat) (t : String)
    (upd : ProgressUpdates)
    (h : (s.progress.filter fun p => p.userId = u ∧ p.topicId = t) = []) :
    (updateCourseProgress now s u t upd).1 =
      { s with progress := s.progress ++ [newProgressRow u t upd now] } := by
  unfold updateCourseProgress
  simp only [h]
  rfl

/-- The update branch of `updateCourseProgress`. -/
theorem ucp_update (now : Nat) (s : Store) (u : Nat) (t : String)
    (upd : ProgressUpdates)
    (h : (s.progress.filter fun p => p.userId = u ∧ p.topicId = t) ≠ []) :
    (updateCourseProgress now s u t upd).1 =
      { s with progress := s.progress.map fun p =>
          if p.userId = u ∧ p.topicId = t then
            applyProgressUpdates p upd now
          else p } := by
  unfold updateCourseProgress
  cases hk : s.progress.filter fun p => p.userId = u ∧ p.topicId = t with
  | nil => exact absurd hk h
  | cons a l => simp [hk]

theorem ucp_keeps_attempts (now : Nat) (s : Store) (u : Nat) (t : String)
    (upd : ProgressUpdates) :
    (updateCourseProgress now s u t upd).1.attempts = s.attempts := by
  unfold updateCourseProgress
  dsimp only
  split <;> rfl

theorem ucp_keeps_activity (now : Nat) (s : Store) (u : Nat) (t : String)
    (upd : ProgressUpdates) :
    (updateCourseProgress now s u t upd).1.activity = s.activity := by
  unfold updateCourseProgress
  dsimp only
  split <;> rfl

theorem ucp_keeps_nextId (now : Nat) (s : Store) (u : Nat) (t : String)
    (upd : ProgressUpdates) :
    (updateCourseProgress now s u t upd).1.nextActivityId =
      s.nextActivityId := by
  unfold updateCourseProgress
  dsimp only
  split <;> rfl

theorem uus_keeps_progress (today : Nat) (s : Store) (userId : Nat) :
    (updateUserStreak today s userId).progress = s.progress := rfl

theorem uus_keeps_activity (today : Nat) (s : Store) (userId : Nat) :
    (updateUserStreak today s userId).activity = s.activity := rfl

theorem uus_keeps_attempts (today : Nat) (s : Store) (userId : Nat) :
    (updateUserStreak today s userId).attempts = s.attempts := rfl

theorem uda_keeps_progress (today : Nat) (s : Store) (userId : Nat)
    (act : ActivityUpdates) :
    (updateDailyActivity today s userId act).1.progress = s.progress := by
  unfold updateDailyActivity
  dsimp only
  split <;> rfl

theorem uda_keeps_attempts (today : Nat) (s : Store) (userId : Nat)
    (act : ActivityUpdates) :
    (updateDailyActivity today s userId act).1.attempts = s.attempts := by
  unfold updateDailyActivity
  dsimp only
  split <;> rfl

/-- The insert branch of `updateDailyActivity`, seen on the activity table:
a fresh row carrying the deltas is appended. -/
theorem uda_insert_activity (today : Nat) (s : Store) (userId : Nat)
    (act : ActivityUpdates)
    (h : (s.activity.filter fun x => x.userId = userId ∧ x.date = today)
      = []) :
    (updateDailyActivity today s userId act).1.activity =
      s.activity ++
        [{ id := s.nextActivityId
           userId := userId
           date := today
           questionsAnswered := act.questionsAnswered.getD 0
           timeSpent := act.timeSpent.getD 0
           xpEarned := act.xpEarned.getD 0
           streakMaintained := true }] := by
  unfold updateDailyActivity
  simp only [h]
  rfl

/-- After `updateCourseProgress` with all fields given, every row of the key
carries exactly those fields and a refreshed `lastAccessed`. -/
theorem ucp_post_fields (now : Nat) (s : Store) (u : Nat) (t : String)
    (sc : ℚ) (qc qt : Nat) (c : Bool) (df : Nat) :
    ∀ p ∈ (updateCourseProgress now s u t
        { score := some sc, questionsCorrect := some qc,
          questionsTotal := some qt, completed := some c,
          difficulty := some df }).1.progress,
      p.userId = u → p.topicId = t →
      p.score = sc ∧ p.questionsCorrect = qc ∧ p.questionsTotal = qt ∧
        p.completed = c ∧ p.difficulty = df ∧ p.lastAccessed = now := by
  intro p hp hpu hpt
  by_cases hk : (s.progress.filter fun q => q.userId = u ∧ q.topicId = t)
      = []
  · rw [ucp_insert now s u t _ hk] at hp
    simp only [List.mem_append, List.mem_singleton] at hp
    rcases hp with hp | hp
    · exfalso
      have hmem : p ∈ s.progress.filter fun q =>
          q.userId = u ∧ q.topicId = t :=
        List.mem_filter.mpr ⟨hp, by simp [hpu, hpt]⟩
      rw [hk] at hmem
      cases hmem
    · subst hp
      simp [newProgressRow]
  · rw [ucp_update now s u t _ hk] at hp
    simp only [List.mem_map] at hp
    obtain ⟨q, hq, hfq⟩ := hp
    by_cases hkq : q.userId = u ∧ q.topicId = t
    · rw [if_pos hkq] at hfq
      subst hfq
      simp [applyProgressUpdates]
    · rw [if_neg hkq] at hfq
      subst hfq
      exact absurd ⟨hpu, hpt⟩ hkq

/-- The update branch of `updateDailyActivity`, seen on the day's rows:
when `[r]` is the day's row set, it stays a single row, additively bumped,
with `streakMaintained` set. -/
theorem uda_existing_accumulates (today : Nat) (s : Store)
    (userId : Nat) (act : ActivityUpdates) (r : DailyActivity)
    (h : (s.activity.filter fun a => a.userId = userId ∧ a.date = today)
      = [r]) :
    (updateDailyActivity today s userId act).1.activity.filter
        (fun a => a.userId = userId ∧ a.date = today) =
      [{ r with
          questionsAnswered :=
            r.questionsAnswered + act.questionsAnswered.getD 0
          timeSpent := r.timeSpent + act.timeSpent.getD 0
          xpEarned := r.xpEarned + act.xpEarned.getD 0
          streakMaintained := true }] := by
  unfold updateDailyActivity
  simp only [h]
  simp only [List.take, List.head?]
  rw [filter_comm_map _ _ ?_ s.activity]
  · rw [h]
    simp
  · intro a
    by_cases hid : a.id = r.id <;> simp [hid]

/-! ### Claims -/

/-- C1: Unlocking a 100-XP achievement on a user with `totalXp = 250` does
increment `totalXp` to 350, but the same SQL statement computes `level` from
the pre-update `totalXp`: the stored level is `FLOOR(250/100)+1 = 3`, not the
claimed `FLOOR(350/100)+1 = 4`; afterwards `level ≠ totalXp/100 + 1`. -/
theorem unlockAchievement_level_from_stale_totalXp :
    ((unlockAchievement 5 xpStore 1 "number_master").1.users.map fun u =>
      (u.totalXp, u.level)) = [(350, 3)] ∧ (350 : Nat) / 100 + 1 = 4 := by
  decide

/-- C8: `unlockAchievement` never checks whether the achievement is already
unlocked: calling it twice on the same 100-XP achievement takes the user's
`totalXp` from 0 to 100 and then to 200 — the second call re-awards the XP,
so re-unlocking is not idempotent with respect to XP. -/
theorem unlockAchievement_reawards_xp :
    (((unlockAchievement 5
        { xpStore with users := [mkUser 1 0 1] } 1
        "number_master").1).users.map fun u => u.totalXp) = [100] ∧
    (((unlockAchievement 6
        (unlockAchievement 5
          { xpStore with users := [mkUser 1 0 1] } 1
          "number_master").1 1 "number_master").1).users.map fun u =>
      u.totalXp) = [200] := by
  decide

/-- C2: On the daily-activity flag sequence (most recent first)
`[true, true, false, true]` the streak scan of `updateUserStreak` stores
`currentStreak = 1` and `longestStreak = 2` — not the claimed
`currentStreak = 2`: the loop only assigns `currentStreak` at index 0, so it
can never exceed 1. -/
theorem updateUserStreak_currentStreak_capped :
    ((getDailyActivity streakStoreB 1 30 20).map fun a =>
      a.streakMaintained) = [true, true, false, true] ∧
    ((updateUserStreak 20 streakStoreB 1).users.map fun u =>
      (u.currentStreak, u.longestStreak)) = [(1, 2)] := by
  decide

/-- C3: Whenever the fetched last-30-days activity flags (most recent first)
are `[false, true, true, true]`, `updateUserStreak` rewrites the user record
with `currentStreak = 0` and `longestStreak = 3` (and stamps
`lastActiveDate`), leaving every other user untouched. -/
theorem updateUserStreak_leading_false (today : Nat) (s : Store)
    (userId : Nat)
    (h : (getDailyActivity s userId 30 today).map
      (fun a => a.streakMaintained) = [false, true, true, true]) :
    (updateUserStreak today s userId).users = s.users.map fun u =>
      if u.id = userId then
        { u with currentStreak := 0, longestStreak := 3,
                 lastActiveDate := today, updatedAt := today }
      else u := by
  unfold updateUserStreak updateUser
  simp only [h]
  rfl

/-- Witness for C3 on a concrete store whose flags are
`[false, true, true, true]`. -/
theorem updateUserStreak_leading_false_witness :
    (getDailyActivity streakStoreA 1 30 20).map
      (fun a => a.streakMaintained) = [false, true, true, true] ∧
    (updateUserStreak 20 streakStoreA 1).users = streakStoreA.users.map
      (fun u =>
        if u.id = 1 then
          { u with currentStreak := 0, longestStreak := 3,
                   lastActiveDate := 20, updatedAt := 20 }
        else u) :=
  ⟨by decide, updateUserStreak_leading_false 20 streakStoreA 1 (by decide)⟩

/-- C10: Passing `difficulty = 0` to `getPracticeQuestions` behaves exactly
like omitting the difficulty — JS truthiness makes `if (difficulty)` skip the
filter for 0 — and returns every question of the topic. -/
theorem getPracticeQuestions_zero_difficulty (s : Store) (topicId : String) :
    getPracticeQuestions s topicId (some 0) =
      getPracticeQuestions s topicId none ∧
    getPracticeQuestions s topicId (some 0) =
      s.questions.filter fun q => q.topicId = topicId := by
  constructor <;> rfl


/-- C6: When a `DailyActivity` row already exists for `(userId, today)`,
`updateDailyActivity` keeps a single row for that day and that row has each
counter additively incremented by the given delta (missing deltas count 0)
and `streakMaintained = true`. -/
theorem updateDailyActivity_accumulates (today : Nat) (s : Store)
    (userId : Nat) (act : ActivityUpdates) (r : DailyActivity)
    (h : (s.activity.filter fun a => a.userId = userId ∧ a.date = today)
      = [r]) :
    (updateDailyActivity today s userId act).1.activity.filter
        (fun a => a.userId = userId ∧ a.date = today) =
      [{ r with
          questionsAnswered :=
            r.questionsAnswered + act.questionsAnswered.getD 0
          timeSpent := r.timeSpent + act.timeSpent.getD 0
          xpEarned := r.xpEarned + act.xpEarned.getD 0
          streakMaintained := true }] :=
  uda_existing_accumulates today s userId act r h

/-- Witness for C6: two same-day calls with `questionsAnswered` 5 then 3
leave one row for the day with `questionsAnswered = 8`. -/
theorem updateDailyActivity_accumulates_witness :
    (c6s1.activity.filter fun a => a.userId = 1 ∧ a.date = 10) = [c6row] ∧
    ((updateDailyActivity 10 c6s1 1 c6act).1.activity.filter
        (fun a => a.userId = 1 ∧ a.date = 10) =
      [{ c6row with
          questionsAnswered :=
            c6row.questionsAnswered + c6act.questionsAnswered.getD 0
          timeSpent := c6row.timeSpent + c6act.timeSpent.getD 0
          xpEarned := c6row.xpEarned + c6act.xpEarned.getD 0
          streakMaintained := true }]) ∧
    c6row.questionsAnswered + c6act.questionsAnswered.getD 0 = 8 :=
  ⟨by decide,
    updateDailyActivity_accumulates 10 c6s1 1 c6act c6row (by decide),
    by decide⟩

/-- C7: With no existing row for `(userId, topicId)`, the first
`updateCourseProgress` call inserts (row count for the key becomes 1) and the
second call updates in place — the key's rows afterwards are exactly the
first call's rows with the fields merged and `lastAccessed` refreshed, still
a single row. -/
theorem updateCourseProgress_upsert_single_row (now1 now2 : Nat) (s : Store)
    (u : Nat) (t : String) (upd1 upd2 : ProgressUpdates)
    (h : (s.progress.filter fun p => p.userId = u ∧ p.topicId = t) = []) :
    ((updateCourseProgress now1 s u t upd1).1.progress.filter
        (fun p => p.userId = u ∧ p.topicId = t)).length = 1 ∧
    ((updateCourseProgress now2 (updateCourseProgress now1 s u t upd1).1 u t
        upd2).1.progress.filter (fun p => p.userId = u ∧ p.topicId = t)) =
      ((updateCourseProgress now1 s u t upd1).1.progress.filter
        (fun p => p.userId = u ∧ p.topicId = t)).map
        (fun p => applyProgressUpdates p upd2 now2) ∧
    ((updateCourseProgress now2 (updateCourseProgress now1 s u t upd1).1 u t
        upd2).1.progress.filter
        (fun p => p.userId = u ∧ p.topicId = t)).length = 1 := by
  have e1 := ucp_insert now1 s u t upd1 h
  have hf1 : ((updateCourseProgress now1 s u t upd1).1.progress.filter
      (fun p => p.userId = u ∧ p.topicId = t)) =
      [newProgressRow u t upd1 now1] := by
    rw [e1]
    show ((s.progress ++ [newProgressRow u t upd1 now1]).filter
      (fun p => decide (p.userId = u ∧ p.topicId = t))) = _
    rw [List.filter_append, h]
    simp [newProgressRow]
  have hne : ((updateCourseProgress now1 s u t upd1).1.progress.filter
      (fun p => p.userId = u ∧ p.topicId = t)) ≠ [] := by
    rw [hf1]; simp
  have e2 := ucp_update now2 (updateCourseProgress now1 s u t upd1).1 u t
    upd2 hne
  have hpres : ∀ p : CourseProgress,
      (fun q : CourseProgress => decide (q.userId = u ∧ q.topicId = t))
        ((fun p => if p.userId = u ∧ p.topicId = t then
          applyProgressUpdates p upd2 now2 else p) p) =
      (fun q : CourseProgress => decide (q.userId = u ∧ q.topicId = t)) p :=
    by
    intro p
    by_cases hk : p.userId = u ∧ p.topicId = t <;>
      simp [hk, applyProgressUpdates]
  have hf2 : ((updateCourseProgress now2
      (updateCourseProgress now1 s u t upd1).1 u t upd2).1.progress.filter
        (fun p => p.userId = u ∧ p.topicId = t)) =
      ((updateCourseProgress now1 s u t upd1).1.progress.filter
        (fun p => p.userId = u ∧ p.topicId = t)).map
        (fun p => if p.userId = u ∧ p.topicId = t then
          applyProgressUpdates p upd2 now2 else p) := by
    rw [e2]
    exact filter_comm_map _ _ hpres _
  refine ⟨by rw [hf1]; rfl, ?_, ?_⟩
  · rw [hf2, hf1]
    simp [newProgressRow]
  · rw [hf2, hf1]
    rfl

/-- Witness for C7 starting from an empty store with `{score: 80}` twice. -/
theorem updateCourseProgress_upsert_single_row_witness :
    ((updateCourseProgress 1 emptyStore 1 "algebra" c7upd).1.progress.filter
        (fun p => p.userId = 1 ∧ p.topicId = "algebra")).length = 1 ∧
    ((updateCourseProgress 2
        (updateCourseProgress 1 emptyStore 1 "algebra" c7upd).1 1 "algebra"
        c7upd).1.progress.filter
        (fun p => p.userId = 1 ∧ p.topicId = "algebra")) =
      ((updateCourseProgress 1 emptyStore 1 "algebra"
        c7upd).1.progress.filter
        (fun p => p.userId = 1 ∧ p.topicId = "algebra")).map
        (fun p => applyProgressUpdates p c7upd 2) ∧
    ((updateCourseProgress 2
        (updateCourseProgress 1 emptyStore 1 "algebra" c7upd).1 1 "algebra"
        c7upd).1.progress.filter
        (fun p => p.userId = 1 ∧ p.topicId = "algebra")).length = 1 :=
  updateCourseProgress_upsert_single_row 1 2 emptyStore 1 "algebra" c7upd
    c7upd (by decide)

/-- C9: When a row for `(userId, today)` exists, `updateDailyActivity`
leaves the users table — in particular `currentStreak`, `longestStreak` and
`lastActiveDate` — completely unchanged; when no row exists (the inserting
call), the only change to the users table is rewriting the matching user's
`currentStreak`/`longestStreak`/`lastActiveDate` (and `updatedAt`) via the
streak recomputation. -/
theorem updateDailyActivity_user_frame (today : Nat) (s : Store)
    (userId : Nat) (act : ActivityUpdates) :
    ((s.activity.filter fun a => a.userId = userId ∧ a.date = today) ≠ [] →
      (updateDailyActivity today s userId act).1.users = s.users) ∧
    ((s.activity.filter fun a => a.userId = userId ∧ a.date = today) = [] →
      ∃ c l, (updateDailyActivity today s userId act).1.users =
        s.users.map fun x =>
          if x.id = userId then
            { x with currentStreak := c, longestStreak := l,
                     lastActiveDate := today, updatedAt := today }
          else x) := by
  constructor
  · intro h
    unfold updateDailyActivity
    cases hk : s.activity.filter fun a => a.userId = userId ∧ a.date = today
      with
    | nil => exact absurd hk h
    | cons a l => simp [hk]
  · intro h
    unfold updateDailyActivity
    simp only [h]
    exact ⟨_, _, rfl⟩

/-- Witness for C9: a same-day second call leaves the user rows untouched;
a first call of the day rewrites exactly the streak fields. -/
theorem updateDailyActivity_user_frame_witness :
    ((updateDailyActivity 20 streakStoreB 1 c6act).1.users =
      streakStoreB.users) ∧
    (∃ c l, (updateDailyActivity 10 c6store 1 c6act).1.users =
      c6store.users.map fun x =>
        if x.id = 1 then
          { x with currentStreak := c, longestStreak := l,
                   lastActiveDate := 10, updatedAt := 10 }
        else x) :=
  ⟨(updateDailyActivity_user_frame 20 streakStoreB 1 c6act).1 (by decide),
   (updateDailyActivity_user_frame 10 c6store 1 c6act).2 (by decide)⟩

/-- C4: For an existing user, `getDashboardData` returns a view whose user
carries `overallGrade` equal to the mean score over completed progress rows
(0 if none), and afterwards the stored user row carries that same grade —
persisted through `updateUser` exactly when it differed. -/
theorem getDashboardData_overallGrade (today : Nat) (s : Store)
    (userId : Nat) (user : User)
    (h : (s.users.filter fun u => u.id = userId).head? = some user) :
    ∃ d, (getDashboardData today s userId).2 = some d ∧
      d.user.overallGrade = meanCompletedScore s userId ∧
      (((getDashboardData today s userId).1.users.filter
          fun u => u.id = userId).head?).map (fun u => u.overallGrade) =
        some (meanCompletedScore s userId) := by
  have hid : user.id = userId :=
    of_decide_eq_true (head_filter_pred _ s.users user h)
  unfold getDashboardData
  simp only [h]
  refine ⟨_, rfl, ?_, ?_⟩
  · exact dash_grade_eq s userId
  · rw [dash_grade_eq]
    by_cases hne : meanCompletedScore s userId ≠ user.overallGrade
    · rw [if_pos hne]
      simp only [updateUser]
      rw [filter_comm_map _ _ ?_ s.users, head_of_map, h]
      · simp [hid, applyUserUpdates]
      · intro u
        by_cases hu : u.id = userId <;> simp [hu, applyUserUpdates]
    · rw [if_neg hne, h]
      rw [not_ne_iff] at hne
      simp [hne]

/-- Witness for C4: completed scores 100, 80, 60 give grade 80, returned and
persisted. -/
theorem getDashboardData_overallGrade_witness :
    meanCompletedScore c4store 1 = 80 ∧
    (∃ d, (getDashboardData 9 c4store 1).2 = some d ∧
      d.user.overallGrade = meanCompletedScore c4store 1 ∧
      (((getDashboardData 9 c4store 1).1.users.filter
          fun u => u.id = 1).head?).map (fun u => u.overallGrade) =
        some (meanCompletedScore c4store 1)) :=
  ⟨by norm_num [meanCompletedScore, c4store, mkProg, emptyStore, c4user,
      mkUser],
    getDashboardData_overallGrade 9 c4store 1 c4user (by rfl)⟩

/-- C5: `saveQuizAttempt` appends the attempt row; every progress row of the
attempt's `(userId, topicId)` ends up with the attempt's
score/correct/total/difficulty and `completed = (score ≥ 70)`; and the
daily-activity update receives `questionsAnswered = questionsTotal`,
`timeSpent = floor(timeSpent/60)`, `xpEarned = floor(score)`: on a fresh day
a row with exactly those values is created, and on a day with one existing
row that row is bumped by exactly those deltas. -/
theorem saveQuizAttempt_effects (today : Nat) (s : Store)
    (a : InsertQuizAttempt) :
    (saveQuizAttempt today s a).1.attempts =
      s.attempts ++
        [{ userId := a.userId, topicId := a.topicId, score := a.score,
           questionsCorrect := a.questionsCorrect,
           questionsTotal := a.questionsTotal, difficulty := a.difficulty,
           timeSpent := a.timeSpent, completedAt := today }] ∧
    (∀ p ∈ (saveQuizAttempt today s a).1.progress,
      p.userId = a.userId → p.topicId = a.topicId →
      p.score = a.score ∧ p.questionsCorrect = a.questionsCorrect ∧
        p.questionsTotal = a.questionsTotal ∧
        p.completed = decide (70 ≤ a.score) ∧
        p.difficulty = a.difficulty ∧ p.lastAccessed = today) ∧
    ((s.activity.filter fun x => x.userId = a.userId ∧ x.date = today)
        = [] →
      (saveQuizAttempt today s a).1.activity =
        s.activity ++
          [{ id := s.nextActivityId, userId := a.userId, date := today,
             questionsAnswered := a.questionsTotal,
             timeSpent := a.timeSpent / 60,
             xpEarned := Rat.floor a.score, streakMaintained := true }]) ∧
    (∀ r : DailyActivity,
      (s.activity.filter fun x => x.userId = a.userId ∧ x.date = today)
        = [r] →
      (saveQuizAttempt today s a).1.activity.filter
          (fun x => x.userId = a.userId ∧ x.date = today) =
        [{ r with
            questionsAnswered := r.questionsAnswered + a.questionsTotal
            timeSpent := r.timeSpent + a.timeSpent / 60
            xpEarned := r.xpEarned + Rat.floor a.score
            streakMaintained := true }]) := by
  unfold saveQuizAttempt
  dsimp only
  refine ⟨?_, ?_, ?_, ?_⟩
  · rw [uda_keeps_attempts, ucp_keeps_attempts]
  · intro p hp hpu hpt
    rw [uda_keeps_progress] at hp
    exact ucp_post_fields today _ a.userId a.topicId a.score
      a.questionsCorrect a.questionsTotal _ a.difficulty p hp hpu hpt
  · intro hAct
    rw [uda_insert_activity today _ a.userId _ ?_]
    · rw [ucp_keeps_activity, ucp_keeps_nextId]
      rfl
    · rw [ucp_keeps_activity]
      exact hAct
  · intro r hr
    exact uda_existing_accumulates today _ a.userId _ r
      (by rw [ucp_keeps_activity]; exact hr)

/-- Witness for C5: a 75-score attempt on a fresh day yields
`completed = true` on the topic's progress row (`decide (70 ≤ 75) = true`)
and creates the day's activity row; a 65-score attempt yields
`completed = false`. -/
theorem saveQuizAttempt_effects_witness :
    decide ((70 : ℚ) ≤ 75) = true ∧
    decide ((70 : ℚ) ≤ 65) = false ∧
    ((∀ p ∈ (saveQuizAttempt 0 quizStore attempt75).1.progress,
      p.userId = attempt75.userId → p.topicId = attempt75.topicId →
      p.score = attempt75.score ∧
        p.questionsCorrect = attempt75.questionsCorrect ∧
        p.questionsTotal = attempt75.questionsTotal ∧
        p.completed = decide (70 ≤ attempt75.score) ∧
        p.difficulty = attempt75.difficulty ∧ p.lastAccessed = 0) ∧
    (saveQuizAttempt 0 quizStore attempt75).1.activity =
      quizStore.activity ++
        [{ id := quizStore.nextActivityId, userId := attempt75.userId,
           date := 0, questionsAnswered := attempt75.questionsTotal,
           timeSpent := attempt75.timeSpent / 60,
           xpEarned := Rat.floor attempt75.score,
           streakMaintained := true }]) ∧
    ((saveQuizAttempt 0 quizStore attempt65).1.attempts =
      quizStore.attempts ++
        [{ userId := attempt65.userId, topicId := attempt65.topicId,
           score := attempt65.score,
           questionsCorrect := attempt65.questionsCorrect,
           questionsTotal := attempt65.questionsTotal,
           difficulty := attempt65.difficulty,
           timeSpent := attempt65.timeSpent, completedAt := 0 }] ∧
    (∀ p ∈ (saveQuizAttempt 0 quizStore attempt65).1.progress,
      p.userId = attempt65.userId → p.topicId = attempt65.topicId →
      p.score = attempt65.score ∧
        p.questionsCorrect = attempt65.questionsCorrect ∧
        p.questionsTotal = attempt65.questionsTotal ∧
        p.completed = decide (70 ≤ attempt65.score) ∧
        p.difficulty = attempt65.difficulty ∧ p.lastAccessed = 0)) :=
  ⟨by rfl, by rfl,
    ⟨(saveQuizAttempt_effects 0 quizStore attempt75).2.1,
      (saveQuizAttempt_effects 0 quizStore attempt75).2.2.1 (by rfl)⟩,
    ⟨(saveQuizAttempt_effects 0 quizStore attempt65).1,
      (saveQuizAttempt_effects 0 quizStore attempt65).2.1⟩⟩
